import Mathlib

/-!
# Formal model of the sandbox code-execution service

A shallow embedding of the request-handling pipeline of the Python sandbox
service: the HTTP router (`src/routers/sandbox_router.py`), the orchestration
service (`src/services/sandbox_service.py`), the file staging and cleanup
helpers (`src/services/file_service.py`), the input validators
(`src/utils/validators.py`) and the configuration object (`src/config.py`).

Interactions with the container runtime and the filesystem are modelled by an
explicit behaviour record (`DockerBehavior`) describing the outcome of each
external operation performed during one request, and an explicit resource
state (`ResState`) tracking which execution unit / staging directory exists.
Python exceptions are modelled with `Except`; the `try/except/finally`
structure of the source is translated branch by branch.
-/

namespace Sandbox

/-! ## Base64 (model of Python `base64.b64encode` / `b64decode`, RFC 4648) -/

/-- The standard base64 alphabet: index `n < 64` to its character. -/
def b64chr (n : Nat) : Char :=
  if n < 26 then Char.ofNat (65 + n)
  else if n < 52 then Char.ofNat (97 + (n - 26))
  else if n < 62 then Char.ofNat (48 + (n - 52))
  else if n = 62 then '+'
  else '/'

/-- Inverse character lookup for the standard base64 alphabet. -/
def b64dchr (c : Char) : Option Nat :=
  if 65 ≤ c.toNat ∧ c.toNat ≤ 90 then some (c.toNat - 65)
  else if 97 ≤ c.toNat ∧ c.toNat ≤ 122 then some (c.toNat - 97 + 26)
  else if 48 ≤ c.toNat ∧ c.toNat ≤ 57 then some (c.toNat - 48 + 52)
  else if c.toNat = 43 then some 62
  else if c.toNat = 47 then some 63
  else none

/-- Base64 encoding of a byte list (each element `< 256`), with `=` padding,
as produced by Python's `base64.b64encode`. -/
def b64encode : List Nat → List Char
  | [] => []
  | [a] => [b64chr (a / 4), b64chr (a % 4 * 16), '=', '=']
  | [a, b] => [b64chr (a / 4), b64chr (a % 4 * 16 + b / 16), b64chr (b % 16 * 4), '=']
  | a :: b :: c :: rest =>
      b64chr (a / 4) :: b64chr (a % 4 * 16 + b / 16) :: b64chr (b % 16 * 4 + c / 64) ::
        b64chr (c % 64) :: b64encode rest

/-- Base64 decoding: four characters at a time, honouring `=` padding. -/
def b64decode : List Char → Option (List Nat)
  | [] => some []
  | c1 :: c2 :: c3 :: c4 :: rest =>
      (b64dchr c1).bind fun s1 =>
      (b64dchr c2).bind fun s2 =>
      if c3 = '=' then
        if c4 = '=' ∧ rest = [] then some [s1 * 4 + s2 / 16] else none
      else
        (b64dchr c3).bind fun s3 =>
        if c4 = '=' then
          if rest = [] then some [s1 * 4 + s2 / 16, s2 % 16 * 16 + s3 / 4] else none
        else
          (b64dchr c4).bind fun s4 =>
          (b64decode rest).map fun bs =>
            (s1 * 4 + s2 / 16) :: (s2 % 16 * 16 + s3 / 4) :: (s3 % 4 * 64 + s4) :: bs
  | _ => none

theorem b64dchr_b64chr : ∀ n, n < 64 → b64dchr (b64chr n) = some n := by decide

theorem b64chr_ne_pad : ∀ n, n < 64 → b64chr n ≠ '=' := by decide

/-- Decoding inverts encoding on genuine byte lists. -/
theorem b64decode_b64encode :
    ∀ bs : List Nat, (∀ x ∈ bs, x < 256) → b64decode (b64encode bs) = some bs := by
  intro bs
  induction bs using b64encode.induct with
  | case1 =>
      intro _
      simp [b64encode, b64decode]
  | case2 a =>
      intro h
      have ha : a < 256 := h a (by simp)
      simp only [b64encode, b64decode]
      rw [b64dchr_b64chr (a / 4) (by omega), b64dchr_b64chr (a % 4 * 16) (by omega)]
      simp
      omega
  | case3 a b =>
      intro h
      have ha : a < 256 := h a (by simp)
      have hb : b < 256 := h b (by simp)
      simp only [b64encode, b64decode]
      rw [b64dchr_b64chr (a / 4) (by omega), b64dchr_b64chr (a % 4 * 16 + b / 16) (by omega),
        b64dchr_b64chr (b % 16 * 4) (by omega)]
      simp [b64chr_ne_pad (b % 16 * 4) (by omega)]
      omega
  | case4 a b c rest ih =>
      intro h
      have ha : a < 256 := h a (by simp)
      have hb : b < 256 := h b (by simp)
      have hc : c < 256 := h c (by simp)
      have hrest : ∀ x ∈ rest, x < 256 := fun x hx => h x (by simp [hx])
      simp only [b64encode, b64decode]
      rw [b64dchr_b64chr (a / 4) (by omega), b64dchr_b64chr (a % 4 * 16 + b / 16) (by omega),
        b64dchr_b64chr (b % 16 * 4 + c / 64) (by omega), b64dchr_b64chr (c % 64) (by omega)]
      rw [ih hrest]
      simp [b64chr_ne_pad (b % 16 * 4 + c / 64) (by omega),
        b64chr_ne_pad (c % 64) (by omega)]
      omega

/-! ## Archive model and artifact extraction
(`SandboxService._extract_images_from_container`) -/

/-- Outcome of `tar.extractfile(member)` followed by `.read()` for one member:
a byte payload, a falsy file object (skipped by the `if file_obj:` guard), or
an exception raised while reading (caught per entry, entry skipped). -/
inductive ReadOutcome
  | ok (bytes : List Nat)
  | noObj
  | err
deriving DecidableEq, Repr

/-- One member of the tar archive returned by `container.get_archive`. -/
structure TarEntry where
  name : List Char
  isFile : Bool
  read : ReadOutcome
deriving DecidableEq, Repr

/-- Response-model `ImageFile` (`src/models/response_models.py`). -/
structure ImageFile where
  filename : List Char
  content : List Char
  size : Nat
deriving DecidableEq, Repr

/-- Outcome of `container.get_archive` plus parsing the tar stream: either the
member list, or an exception (corrupt stream, unit already gone), which the
code catches, logging a warning. -/
inductive ArchiveOutcome
  | ok (entries : List TarEntry)
  | err
deriving DecidableEq, Repr

/-- ASCII model of Python `str.lower` on one character. -/
def pyLower (c : Char) : Char :=
  if 65 ≤ c.toNat ∧ c.toNat ≤ 90 then Char.ofNat (c.toNat + 32) else c

/-- Python `str.lower` over a whole string. -/
def strLower (s : List Char) : List Char := s.map pyLower

/-- `os.path.basename`: everything after the last `/`. -/
def basename (s : List Char) : List Char :=
  s.foldl (fun acc c => if c = '/' then [] else acc ++ [c]) []

/-- The `image_extensions` list from `_extract_images_from_container`. -/
def imageExtensions : List (List Char) :=
  [".png".data, ".jpg".data, ".jpeg".data, ".gif".data, ".bmp".data, ".svg".data]

/-- `any(filename.lower().endswith(ext) for ext in image_extensions)`. -/
def isImageName (filename : List Char) : Bool :=
  imageExtensions.any fun ext => ext.isSuffixOf (strLower filename)

/-- The body of the member loop of `_extract_images_from_container`: a regular
file whose basename has a recognized extension and whose payload is readable
becomes an `ImageFile`; anything else contributes nothing. -/
def extractOne (m : TarEntry) : Option ImageFile :=
  if m.isFile then
    let filename := basename m.name
    if isImageName filename then
      match m.read with
      | .ok bytes => some ⟨filename, b64encode bytes, bytes.length⟩
      | .noObj => none
      | .err => none
    else none
  else none

/-- `_extract_images_from_container`: on any archive-level failure the outer
`except` returns the (still empty) accumulator; otherwise the member loop. -/
def extractImages : ArchiveOutcome → List ImageFile
  | .err => []
  | .ok entries => entries.filterMap extractOne

/-- Modelled from the spec (ArtifactExtractor contract, §4.3): the recognized
extension set, written out again from the spec's words. -/
def specExtensions : List (List Char) :=
  [".png".data, ".jpg".data, ".jpeg".data, ".gif".data, ".bmp".data, ".svg".data]

/-- Modelled from the spec (§4.3): a regular file whose name ends
case-insensitively in a recognized extension is recorded as
`{filename: basename, content: base64, size: byte length}`; non-matching
entries and directory entries are skipped. -/
def specArtifactOf (name : List Char) (isFile : Bool) (bytes : List Nat) :
    Option ImageFile :=
  if isFile && specExtensions.any (fun ext => ext.isSuffixOf (strLower (basename name))) then
    some ⟨basename name, b64encode bytes, bytes.length⟩
  else none

/-- Modelled from the spec (§4.3): the artifact list of a fully readable
working directory listing. -/
def specArtifacts (items : List (List Char × Bool × List Nat)) : List ImageFile :=
  items.filterMap fun i => specArtifactOf i.1 i.2.1 i.2.2

/-- A fully readable archive member. -/
def mkEntry (i : List Char × Bool × List Nat) : TarEntry :=
  ⟨i.1, i.2.1, .ok i.2.2⟩

theorem extractOne_mkEntry (i : List Char × Bool × List Nat) :
    extractOne (mkEntry i) = specArtifactOf i.1 i.2.1 i.2.2 := by
  obtain ⟨name, isFile, bytes⟩ := i
  simp only [extractOne, mkEntry, specArtifactOf, isImageName, specExtensions,
    imageExtensions, Bool.and_eq_true]
  cases isFile <;> simp

/-! ## Exceptions, staging, configuration -/

/-- Python exceptions relevant to the request pipeline. `httpExc s` is
`fastapi.HTTPException(status_code = s)`; `readTimeout` is the
`requests.exceptions.ReadTimeout` raised by `container.wait(timeout=...)` on
expiry; `attributeError` is the `AttributeError` raised by reading a missing
attribute; `notFound` is `docker.errors.NotFound`. -/
inductive PyExc
  | httpExc (status : Nat)
  | containerError (exitStatus : Int)
  | readTimeout
  | attributeError
  | notFound
  | other
deriving DecidableEq, Repr

/-- Outcome of fetching one reference file inside
`FileService.download_ref_files`: HTTP 200, a non-200 status, or a raised
exception (network error, write error). -/
inductive DlOutcome
  | ok
  | badStatus (code : Nat)
  | exc
deriving DecidableEq, Repr

/-- `FileService.download_ref_files`: files are fetched sequentially; a
non-200 status raises `HTTPException(400)`, any other exception in the loop
body is caught by the per-file `except` and re-raised as `HTTPException(400)`:
the first failing file aborts the whole batch. -/
def downloadRefFiles : List DlOutcome → Except PyExc Unit
  | [] => .ok ()
  | .ok :: rest => downloadRefFiles rest
  | .badStatus _ :: _ => .error (.httpExc 400)
  | .exc :: _ => .error (.httpExc 400)

/-- The integer-valued attributes of the `Config` class (`src/config.py`)
with their default values: attribute lookup is an association-list lookup.
`DEFAULT_TIMEOUT` is not among them. -/
def configIntAttrs : List (String × Int) :=
  [("DOCKER_CLIENT_TIMEOUT", 60), ("DOCKER_CLIENT_MAX_RETRIES", 3),
   ("DOCKER_CLIENT_RETRY_DELAY", 2), ("CONTAINER_CPU_QUOTA", 50000),
   ("CONTAINER_TIMEOUT", 30), ("API_PORT", 16009)]

/-- `getattr(config, n)` for integer attributes. -/
def configIntAttr (n : String) : Option Int := configIntAttrs.lookup n

/-! ## Resource state and runtime behaviour -/

/-- Which request-scoped resources exist, what the unit's volume bind target
was, and which timeout value was handed to `container.wait`. -/
structure ResState where
  unitCreated : Bool
  unitPresent : Bool
  dirCreated : Bool
  dirPresent : Bool
  bindTarget : Option (List Char)
  usedTimeout : Option Int
deriving DecidableEq, Repr

/-- The state at request entry: nothing created. -/
def initState : ResState := ⟨false, false, false, false, none, none⟩

/-- Outcome of `docker_client.containers.run`. -/
inductive RunOutcome
  | ok
  | raiseContainerError (exitStatus : Int)
  | raiseOther
deriving DecidableEq, Repr

/-- Outcome of `container.wait(timeout=...)`: a status code, the
`ReadTimeout` raised on expiry, or another exception. -/
inductive WaitOutcome
  | done (status : Int)
  | readTimeout
  | errOther
deriving DecidableEq, Repr

/-- The behaviour of the container runtime and the filesystem during one
request: one field per external operation the service performs. -/
structure DockerBehavior where
  available : Bool
  containerName : List Char
  unitId : List Char
  runOutcome : RunOutcome
  waitOutcome : WaitOutcome
  archive : ArchiveOutcome
  logsRaise : Bool
  logsText : List Char
  removeRaises : Bool
  rmtreeRaises : Bool
deriving DecidableEq, Repr

/-! ## Cleanup (`SandboxService._cleanup_resources`,
`FileService.cleanup_directory`) -/

/-- `docker_client.containers.get(name)` followed by
`container.remove(force=True)`: raises `NotFound` for an absent unit,
possibly raises on removal, otherwise removes the unit. -/
def containerRemoveOp (raises : Bool) (s : ResState) : Except PyExc ResState :=
  if s.unitPresent = false then .error .notFound
  else if raises then .error .other
  else .ok { s with unitPresent := false }

/-- `shutil.rmtree(directory)`: possibly raises, otherwise deletes. -/
def rmtreeOp (raises : Bool) (s : ResState) : Except PyExc ResState :=
  if raises then .error .other
  else .ok { s with dirPresent := false }

/-- `FileService.cleanup_directory`: `if directory.exists(): shutil.rmtree`,
with every exception caught and logged as a warning. -/
def cleanup_directory (raises : Bool) (s : ResState) : Except PyExc ResState :=
  .ok (if s.dirPresent then
        match rmtreeOp raises s with
        | .ok s2 => s2
        | .error _ => s
      else s)

/-- `SandboxService._cleanup_resources`: remove the unit (a `NotFound` is
passed over, any other removal error is logged and swallowed), then, if a
staging directory was allocated, delete it. -/
def cleanupResources (removeRaises rmtreeRaises : Bool) (s : ResState) :
    Except PyExc ResState :=
  let s1 := match containerRemoveOp removeRaises s with
    | .ok s2 => s2
    | .error _ => s
  if s1.dirCreated then cleanup_directory rmtreeRaises s1
  else .ok s1

/-- The state after `_cleanup_resources` (which, as proved below, never
raises). -/
def cleanupSt (removeRaises rmtreeRaises : Bool) (s : ResState) : ResState :=
  match cleanupResources removeRaises rmtreeRaises s with
  | .ok s2 => s2
  | .error _ => s

/-! ## `SandboxService.execute_code` -/

/-- Response model `ExecuteResponse` (`src/models/response_models.py`). -/
structure ExecuteResponse where
  success : Bool
  output : List Char
  exit_code : Int
  container_id : List Char
  generated_images : List ImageFile
  error_message : Option (List Char)
deriving DecidableEq, Repr

/-- Rendering of `str(e)` for the exceptions the service interpolates into
messages. -/
def excStr : PyExc → List Char
  | .httpExc s => "HTTPException ".data ++ (toString s).data
  | .containerError st => "Container exited with status ".data ++ (toString st).data
  | .readTimeout => "ReadTimeout".data
  | .attributeError => "AttributeError".data
  | .notFound => "NotFound".data
  | .other => "Exception".data

/-- `if timeout is None: timeout = config.DEFAULT_TIMEOUT` — the attribute
lookup on the `Config` object, which raises `AttributeError` when the
attribute does not exist. -/
def resolveTimeout : Option Int → Except PyExc Int
  | some t => .ok t
  | none =>
      match configIntAttr "DEFAULT_TIMEOUT" with
      | some v => .ok v
      | none => .error .attributeError

/-- The `try` block of `execute_code`: make the staging directory, download
reference files, create the unit (binding the staging directory at
`work_dir`), wait bounded by the timeout, extract artifacts, read logs,
build the response.  Returns the outcome together with the resource state
handed to the `finally` block. -/
def serviceTry (work_dir : List Char) (t : Int) (ref_files : List DlOutcome)
    (b : DockerBehavior) : Except PyExc ExecuteResponse × ResState :=
  let s0 : ResState := { initState with dirCreated := true, dirPresent := true }
  match downloadRefFiles ref_files with
  | .error e => (.error e, s0)
  | .ok _ =>
    match b.runOutcome with
    | .raiseContainerError st => (.error (.containerError st), s0)
    | .raiseOther => (.error .other, s0)
    | .ok =>
      let s1 : ResState :=
        { s0 with
            unitCreated := true
            unitPresent := true
            bindTarget := some work_dir }
      -- `_copy_files_to_container` swallows every exception it raises and
      -- affects no claim, so it contributes nothing here.
      match b.waitOutcome with
      | .readTimeout => (.error .readTimeout, { s1 with usedTimeout := some t })
      | .errOther => (.error .other, { s1 with usedTimeout := some t })
      | .done exitCode =>
        let s2 : ResState := { s1 with usedTimeout := some t }
        let images := extractImages b.archive
        if b.logsRaise then (.error .other, s2)
        else (.ok { success := exitCode == 0, output := b.logsText,
                    exit_code := exitCode, container_id := b.unitId.take 12,
                    generated_images := images, error_message := none }, s2)

/-- The `except` clauses of `execute_code`: a `docker.errors.ContainerError`
becomes a normal failure response; every other exception — including the
`HTTPException(400)` raised by staging and the `ReadTimeout` raised by the
wait — is re-raised as `HTTPException(500)`. -/
def handleServiceExc (containerName : List Char) :
    Except PyExc ExecuteResponse → Except PyExc ExecuteResponse
  | .ok r => .ok r
  | .error (.containerError st) =>
      .ok { success := false, output := excStr (.containerError st),
            exit_code := st, container_id := containerName,
            generated_images := [],
            error_message :=
              some ("Container execution failed: ".data
                      ++ excStr (.containerError st)) }
  | .error _ => .error (.httpExc 500)

/-- `SandboxService.execute_code`: availability check and timeout defaulting
happen before the `try`, so their exceptions bypass the `finally`; all other
paths run `_cleanup_resources` before returning. -/
def serviceExecute (work_dir : List Char) (timeout : Option Int)
    (ref_files : List DlOutcome) (b : DockerBehavior) :
    Except PyExc ExecuteResponse × ResState :=
  if b.available = false then (.error (.httpExc 503), initState)
  else
    match resolveTimeout timeout with
    | .error e => (.error e, initState)
    | .ok t =>
        let p := serviceTry work_dir t ref_files b
        (handleServiceExc b.containerName p.1,
         cleanupSt b.removeRaises b.rmtreeRaises p.2)

/-! ## Validators (`src/utils/validators.py`) -/

/-- `validate_timeout`: rejects any present value outside `[1, 300]`. -/
def validate_timeout : Option Int → Except PyExc Unit
  | none => .ok ()
  | some t => if t < 1 ∨ 300 < t then .error (.httpExc 400) else .ok ()

/-- `validate_work_dir`: rejects a directory not starting with `/data`. -/
def validate_work_dir (work_dir : List Char) : Except PyExc Unit :=
  if "/data".data.isPrefixOf work_dir then .ok () else .error (.httpExc 400)

/-! ## Router (`src/routers/sandbox_router.py`) -/

/-- Python `str.isspace` characters relevant to `str.strip`. -/
def pySpace (c : Char) : Bool :=
  c == ' ' || c == '\t' || c == '\n' || c == '\r' || c == '\x0b' || c == '\x0c'

/-- Python `str.strip()`. -/
def pyStrip (s : List Char) : List Char :=
  ((s.dropWhile pySpace).reverse.dropWhile pySpace).reverse

/-- Request model `ExecuteRequest` (`src/models/request_models.py`); for a
`RefFile` only the fate of its download matters to the model. -/
structure ExecuteRequest where
  code : List Char
  timeout : Option Int
  work_dir : List Char
  ref_files : List DlOutcome
deriving DecidableEq, Repr

/-- Python truthiness of `request.timeout`: `None` and `0` are falsy. -/
def timeoutTruthy : Option Int → Bool
  | none => false
  | some t => t != 0

/-- `request.timeout < 1 or request.timeout > 300` (evaluated only when the
truthiness guard passed). -/
def timeoutRangeBad : Option Int → Bool
  | none => false
  | some t => decide (t < 1 ∨ 300 < t)

/-- The router's `except HTTPException: raise; except Exception: ... 500`. -/
def routerWrap : Except PyExc ExecuteResponse → Except PyExc ExecuteResponse
  | .ok r => .ok r
  | .error (.httpExc c) => .error (.httpExc c)
  | .error _ => .error (.httpExc 500)

/-- The `/execute` handler: empty-code check, the inline
`if request.timeout and (request.timeout < 1 or request.timeout > 300)`
check (note: never `validate_timeout` or `validate_work_dir`), then the
service call. -/
def routerExecute (req : ExecuteRequest) (b : DockerBehavior) :
    Except PyExc ExecuteResponse × ResState :=
  if pyStrip req.code = [] then (.error (.httpExc 400), initState)
  else if timeoutTruthy req.timeout && timeoutRangeBad req.timeout then
    (.error (.httpExc 400), initState)
  else
    let p := serviceExecute req.work_dir req.timeout req.ref_files b
    (routerWrap p.1, p.2)

/-! ## Concrete fixtures -/

/-- A benign runtime behaviour: runtime available, unit runs to completion
with exit status 0, empty working directory, logs `hi`, cleanup succeeds. -/
def bOk : DockerBehavior :=
  ⟨true, "sandbox-abc12345".data, "abc123def456789".data, .ok, .done 0,
   .ok [], false, "hi".data, false, false⟩

/-- The response `bOk` produces on a successful run. -/
def respOk : ExecuteResponse :=
  ⟨true, "hi".data, 0, "abc123def456".data, [], none⟩

/-- A plain valid request. -/
def reqBase : ExecuteRequest := ⟨"print(1)".data, some 10, "/data".data, []⟩

/-- The same request with `work_dir` outside the allowed root. -/
def reqEtc : ExecuteRequest := ⟨"print(1)".data, some 10, "/etc".data, []⟩

/-- The same request with `timeout = 0`. -/
def reqZero : ExecuteRequest := ⟨"print(1)".data, some 0, "/data".data, []⟩

/-- The same request with one reference file whose download returns 404. -/
def reqDl : ExecuteRequest :=
  ⟨"print(1)".data, some 10, "/data".data, [.badStatus 404]⟩

/-- The same request with `timeout` explicitly `null`. -/
def reqNull : ExecuteRequest := ⟨"print(1)".data, none, "/data".data, []⟩

/-! ## Claims -/

/-- C1: the claim says a unit exceeding its timeout yields a normal
`success=false` result with the partial output.  In the code,
`container.wait` raises `ReadTimeout`, which is caught by the generic
`except Exception` and re-raised as `HTTPException(500)`: the request
surfaces an infrastructure-level error, against the claim (and against the
repository's own `test_python_infinite_loop_timeout`, which expects an HTTP
200 result).  The unit had been created, so the failure is not a rejection. -/
theorem timeout_surfaces_500 :
    (routerExecute reqBase { bOk with waitOutcome := .readTimeout }).1
        = .error (.httpExc 500) ∧
    (routerExecute reqBase { bOk with waitOutcome := .readTimeout }).2.unitCreated
        = true :=
  ⟨rfl, rfl⟩

/-- C2: the claim says a `work_dir` outside `/data` is rejected with a 400
before any unit is created.  The router never calls `validate_work_dir`: a
request with `work_dir = "/etc"` is accepted, a unit is created with the
staging directory bound at `/etc`, and the run returns a 200 result — even
though the repository's own validator would reject it. -/
theorem work_dir_never_validated :
    (routerExecute reqEtc bOk).1 = .ok respOk ∧
    (routerExecute reqEtc bOk).2.unitCreated = true ∧
    (routerExecute reqEtc bOk).2.bindTarget = some "/etc".data ∧
    validate_work_dir "/etc".data = .error (.httpExc 400) :=
  ⟨rfl, rfl, rfl, rfl⟩

/-- C3: the claim says every timeout outside `[1,300]`, including 0, is
rejected and no unit is created.  The router's inline check
`if request.timeout and (...)` skips the falsy value 0: the request is
accepted, a unit is created, and `wait` is called with timeout 0 — even
though the repository's own `validate_timeout` would reject 0. -/
theorem timeout_zero_not_rejected :
    (routerExecute reqZero bOk).1 = .ok respOk ∧
    (routerExecute reqZero bOk).2.unitCreated = true ∧
    (routerExecute reqZero bOk).2.usedTimeout = some 0 ∧
    validate_timeout (some 0) = .error (.httpExc 400) :=
  ⟨rfl, rfl, rfl, rfl⟩

/-- C4: the claim says a failed reference-file download aborts the batch,
cleans the staging directory, returns a 400-class response and creates no
unit.  The staging layer does raise `HTTPException(400)`, the directory is
cleaned and no unit is created — but `execute_code`'s blanket
`except Exception` re-raises the 400 as `HTTPException(500)`, so the
response is 500-class. -/
theorem staging_failure_surfaces_500 :
    downloadRefFiles [DlOutcome.badStatus 404] = .error (.httpExc 400) ∧
    (routerExecute reqDl bOk).1 = .error (.httpExc 500) ∧
    (routerExecute reqDl bOk).2.unitCreated = false ∧
    (routerExecute reqDl bOk).2.dirCreated = true ∧
    (routerExecute reqDl bOk).2.dirPresent = false :=
  ⟨rfl, rfl, rfl, rfl, rfl⟩

theorem serviceTry_dirCreated (wd : List Char) (t : Int) (rf : List DlOutcome)
    (b : DockerBehavior) : (serviceTry wd t rf b).2.dirCreated = true := by
  unfold serviceTry
  cases downloadRefFiles rf with
  | error e => rfl
  | ok u =>
      cases b.runOutcome with
      | raiseContainerError st => rfl
      | raiseOther => rfl
      | ok =>
          cases b.waitOutcome with
          | readTimeout => rfl
          | errOther => rfl
          | done ec => cases hb : b.logsRaise <;> simp [hb]

theorem cleanupSt_clean (s : ResState) (hd : s.dirCreated = true) :
    (cleanupSt false false s).unitPresent = false ∧
    (cleanupSt false false s).dirPresent = false := by
  obtain ⟨u1, u2, d1, d2, bt, ut⟩ := s
  simp only at hd
  subst hd
  cases u2 <;> cases d2 <;> exact ⟨rfl, rfl⟩

/-- C5: on every exit path of a request — validation rejection, runtime
unavailable, staging failure, unexpected exception, timeout, or normal
return — the final resource state holds no execution unit and no staging
directory, provided the removal operations themselves do not fail. -/
theorem cleanup_on_every_path (req : ExecuteRequest) (b : DockerBehavior)
    (h1 : b.removeRaises = false) (h2 : b.rmtreeRaises = false) :
    (routerExecute req b).2.unitPresent = false ∧
    (routerExecute req b).2.dirPresent = false := by
  unfold routerExecute
  split
  · exact ⟨rfl, rfl⟩
  · split
    · exact ⟨rfl, rfl⟩
    · show ((serviceExecute req.work_dir req.timeout req.ref_files b).2.unitPresent = false)
        ∧ ((serviceExecute req.work_dir req.timeout req.ref_files b).2.dirPresent = false)
      unfold serviceExecute
      split
      · exact ⟨rfl, rfl⟩
      · split
        · exact ⟨rfl, rfl⟩
        · rw [h1, h2]
          exact cleanupSt_clean _ (serviceTry_dirCreated _ _ _ _)

/-- C5 witness at a concrete request and behaviour. -/
theorem cleanup_on_every_path_witness :
    (routerExecute reqBase bOk).2.unitPresent = false ∧
    (routerExecute reqBase bOk).2.dirPresent = false :=
  cleanup_on_every_path reqBase bOk rfl rfl

/-- C6: `_cleanup_resources` never raises (it returns a state on every
input), running it a second time neither raises nor changes the end state,
and a failure removing the unit does not skip the staging-directory
removal. -/
theorem cleanup_idempotent_never_raises (r d : Bool) (s : ResState) :
    cleanupResources r d s = .ok (cleanupSt r d s) ∧
    cleanupResources r d (cleanupSt r d s) = .ok (cleanupSt r d s) ∧
    (r = true → d = false → s.dirCreated = true →
      (cleanupSt r d s).dirPresent = false) := by
  obtain ⟨u1, u2, d1, d2, bt, ut⟩ := s
  cases r <;> cases d <;> cases u2 <;> cases d1 <;> cases d2 <;>
    refine ⟨rfl, rfl, ?_⟩ <;> intro hr hd hdc <;> first | rfl | simp_all

/-- C6 witness: a state holding both a unit and a staging directory, with a
unit removal that fails and a directory removal that succeeds. -/
theorem cleanup_idempotent_witness :
    cleanupResources true false ⟨true, true, true, true, none, none⟩
        = .ok (cleanupSt true false ⟨true, true, true, true, none, none⟩) ∧
    cleanupResources true false (cleanupSt true false ⟨true, true, true, true, none, none⟩)
        = .ok (cleanupSt true false ⟨true, true, true, true, none, none⟩) ∧
    (cleanupSt true false ⟨true, true, true, true, none, none⟩).dirPresent = false :=
  ⟨(cleanup_idempotent_never_raises true false _).1,
   (cleanup_idempotent_never_raises true false _).2.1,
   (cleanup_idempotent_never_raises true false _).2.2 rfl rfl rfl⟩

/-- A readable image member. -/
def entGood : TarEntry := ⟨"data/a.png".data, true, .ok [1, 2, 3]⟩

/-- An image member whose payload read raises. -/
def entBad : TarEntry := ⟨"data/b.png".data, true, .err⟩

/-- C7 counterexample: the claim says any extraction failure — including an
unreadable entry — degrades to an empty artifact list.  With one readable
and one unreadable image member, the per-entry `except` skips only the
failing entry and the result is a one-element list, not the empty list. -/
theorem entry_failure_list_not_empty :
    entBad.read = .err ∧
    extractImages (.ok [entGood, entBad])
        = [⟨"a.png".data, b64encode [1, 2, 3], 3⟩] ∧
    extractImages (.ok [entGood, entBad]) ≠ [] := by
  refine ⟨rfl, rfl, ?_⟩
  decide

theorem extractOne_err (e : TarEntry) (he : e.read = .err) :
    extractOne e = none := by
  simp [extractOne, he]

/-- The fields of the response that were computed before extraction runs. -/
def respCore (r : ExecuteResponse) : List Char × Int × Bool :=
  (r.output, r.exit_code, r.success)

/-- C7 amended: an archive-level failure degrades to an empty artifact list;
a failure reading an individual entry skips exactly that entry, keeping the
others; and the archive outcome never changes the request's outcome beyond
`generated_images` — output, exit code and success, and any error raised,
are identical for any two archive outcomes. -/
theorem extraction_degrades (pre post : List TarEntry) (e : TarEntry)
    (wd : List Char) (t : Option Int) (rf : List DlOutcome)
    (b : DockerBehavior) (a1 a2 : ArchiveOutcome) (he : e.read = .err) :
    extractImages .err = [] ∧
    extractImages (.ok (pre ++ e :: post)) = extractImages (.ok (pre ++ post)) ∧
    (serviceExecute wd t rf { b with archive := a1 }).1.map respCore =
      (serviceExecute wd t rf { b with archive := a2 }).1.map respCore := by
  refine ⟨rfl, ?_, ?_⟩
  · simp [extractImages, List.filterMap_append, extractOne_err e he]
  · obtain ⟨av, cn, uid, ro, wo, ar, lr, lt, rr, tr⟩ := b
    cases av with
    | false => rfl
    | true =>
        cases h : resolveTimeout t with
        | error exc => simp [serviceExecute, h]
        | ok tv =>
            simp only [serviceExecute, h]
            cases hdl : downloadRefFiles rf with
            | error exc => simp [serviceTry, hdl]
            | ok u =>
                cases ro <;> cases wo <;> cases lr <;>
                  simp [serviceTry, hdl, handleServiceExc, respCore, Except.map]

/-- C7 amended, witness: a concrete unreadable entry and two concrete
archive outcomes. -/
theorem extraction_degrades_witness :
    extractImages .err = [] ∧
    extractImages (.ok ([entGood] ++ entBad :: []))
        = extractImages (.ok ([entGood] ++ [])) ∧
    (serviceExecute "/data".data (some 10) [] { bOk with archive := .err }).1.map respCore =
      (serviceExecute "/data".data (some 10) [] { bOk with archive := .ok [entGood] }).1.map respCore := by
  have h := extraction_degrades [entGood] [] entBad "/data".data (some 10) []
    bOk ArchiveOutcome.err (.ok [entGood]) rfl
  exact h

/-- C8: on a fully readable archive, the extracted artifact list is exactly
the spec's selection — the regular-file entries whose basename ends
case-insensitively in one of `.png .jpg .jpeg .gif .bmp .svg`, recorded
under their basename; directory entries and other extensions drop out. -/
theorem extraction_matches_spec (items : List (List Char × Bool × List Nat)) :
    extractImages (.ok (items.map mkEntry)) = specArtifacts items := by
  simp only [extractImages, specArtifacts, List.filterMap_map]
  congr 1
  funext i
  exact extractOne_mkEntry i

/-- C9: every artifact the extractor produces round-trips — decoding its
base64 `content` yields exactly `size` bytes, and those bytes are the
original file's bytes from the archive. -/
theorem artifact_content_roundtrip (items : List (List Char × Bool × List Nat))
    (h : ∀ i ∈ items, ∀ x ∈ i.2.2, x < 256) :
    ∀ img ∈ extractImages (.ok (items.map mkEntry)),
      ∃ i ∈ items, b64decode img.content = some i.2.2
        ∧ img.size = i.2.2.length := by
  intro img hmem
  simp only [extractImages, List.filterMap_map, List.mem_filterMap] at hmem
  obtain ⟨i, hi, hext⟩ := hmem
  refine ⟨i, hi, ?_⟩
  have hb : ∀ x ∈ i.2.2, x < 256 := h i hi
  simp only [Function.comp, extractOne_mkEntry, specArtifactOf] at hext
  split at hext
  · obtain rfl : (⟨basename i.1, b64encode i.2.2, i.2.2.length⟩ : ImageFile) = img :=
      Option.some.inj hext
    exact ⟨b64decode_b64encode i.2.2 hb, rfl⟩
  · exact absurd hext (by simp)

/-- C9 witness: a one-file archive, with the produced artifact written out
explicitly. -/
theorem artifact_content_roundtrip_witness :
    ∃ i ∈ [("data/a.png".data, true, [137, 80, 78])],
      b64decode (ImageFile.content ⟨"a.png".data, b64encode [137, 80, 78], 3⟩)
          = some i.2.2
        ∧ ImageFile.size ⟨"a.png".data, b64encode [137, 80, 78], 3⟩ = i.2.2.length :=
  artifact_content_roundtrip [("data/a.png".data, true, [137, 80, 78])]
    (by decide) ⟨"a.png".data, b64encode [137, 80, 78], 3⟩ (by decide)

/-- C10: with `timeout` explicitly `null`, `execute_code` reads
`config.DEFAULT_TIMEOUT`; `Config` defines no such attribute (its timeout
attribute is `CONTAINER_TIMEOUT = 30`), so an `AttributeError` is raised and
the router turns it into `HTTPException(500)` — the run never starts. -/
theorem null_timeout_attribute_error (req : ExecuteRequest) (b : DockerBehavior)
    (hav : b.available = true) (ht : req.timeout = none)
    (hc : ¬ pyStrip req.code = []) :
    configIntAttr "DEFAULT_TIMEOUT" = none ∧
    configIntAttr "CONTAINER_TIMEOUT" = some 30 ∧
    (routerExecute req b).1 = .error (.httpExc 500) ∧
    (routerExecute req b).2 = initState := by
  refine ⟨by decide, by decide, ?_, ?_⟩ <;>
  · unfold routerExecute serviceExecute
    rw [if_neg hc, ht, hav]
    simp [timeoutTruthy, resolveTimeout, routerWrap, show configIntAttr "DEFAULT_TIMEOUT" = none from by decide]

/-- C10 witness. -/
theorem null_timeout_attribute_error_witness :
    configIntAttr "DEFAULT_TIMEOUT" = none ∧
    configIntAttr "CONTAINER_TIMEOUT" = some 30 ∧
    (routerExecute reqNull bOk).1 = .error (.httpExc 500) ∧
    (routerExecute reqNull bOk).2 = initState :=
  null_timeout_attribute_error reqNull bOk rfl rfl (by decide)

end Sandbox
